import Mathlib

/-!
nginx-asg-sync: configuration parsing and validation.

A shallow embedding of `cmd/sync/config.go`.

* Go `string` is `String`; Go `int` and `time.Duration` (an `int64`) are `Int`.
  The code never does arithmetic on them, it only compares them with zero and
  prints them, so no wrap-around can occur.
* A Go `error` is the message it carries; the `nil` error is `none`.
* A Go `*config` is an `Option config`; `nil` is `none`.
* `fmt.Errorf` and `fmt.Sprintf` with `%v` applied to a string splice that
  string into the format; `%d` applied to an `int` prints it in base ten.
-/

namespace AsgSync

/-! ## Data model (config.go, lines 11-24) -/

/-- The Go struct `upstream`. -/
structure upstream where
  Name : String
  AutoscalingGroup : String
  Port : Int
  Kind : String
  MaxConns : Int
deriving DecidableEq, Repr

/-- The Go struct `config`. -/
structure config where
  Region : String
  APIEndpoint : String
  SyncIntervalInSeconds : Int
  Upstreams : List upstream
deriving DecidableEq, Repr

/-! ## Message formats (config.go, lines 26-31) -/

/-- The format `errorMsgFormat`, applied to its one `%v` argument. -/
def errorMsgFormat (field : String) : String :=
  "The mandatory field " ++ field ++ " is either empty or missing in the config file"

/-- The constant `intervalErrorMsg`. -/
def intervalErrorMsg : String :=
  "The mandatory field sync_interval_in_seconds is either 0 or missing in the config file"

/-- The constant `upstreamNameErrorMsg`. -/
def upstreamNameErrorMsg : String :=
  "The mandatory field name is either empty or missing for an upstream in the config file"

/-- The format `upstreamErrorMsgFormat`, applied to its two `%v` arguments. -/
def upstreamErrorMsgFormat (field name : String) : String :=
  "The mandatory field " ++ field ++ " is either empty or missing for the upstream " ++ name ++
    " in the config file"

/-- The format `upstreamPortErrorMsgFormat`, applied to its one `%v` argument. -/
def upstreamPortErrorMsgFormat (name : String) : String :=
  "The mandatory field port is either zero or missing for the upstream " ++ name ++
    " in the config file"

/-- The format `upstreamKindErrorMsgFormat`, applied to its one `%v` argument. -/
def upstreamKindErrorMsgFormat (name : String) : String :=
  "The mandatory field kind is either not equal to http or tcp or missing for the upstream " ++
    name ++ " in the config file"

/-- The message of the inline `fmt.Errorf` on line 82. -/
def noUpstreamsErrorMsg : String :=
  "There is no upstreams found in the config file"

/-! ## Integer printing (`%d` of the Go `fmt` package) -/

/-- The ASCII digit for `d`, that is `byte('0' + d)`. -/
def fmtDigit (d : Nat) : Char := Char.ofNat (48 + d)

/-- The digit loop of `fmt`: while `u >= 10` emit the last digit in front of what has been
written and divide by ten, then emit the leading digit. `fuel` bounds the number of turns. -/
def fmtUnsigned : Nat → Nat → List Char → List Char
  | 0, u, acc => fmtDigit u :: acc
  | fuel + 1, u, acc =>
    if 10 ≤ u then fmtUnsigned fuel (u / 10) (fmtDigit (u % 10) :: acc)
    else fmtDigit u :: acc

/-- The verb `%d` on an `int`: a minus sign for a negative value, then the digits of the
magnitude. -/
def fmtInteger (v : Int) : String :=
  String.mk ((if v < 0 then ['-'] else []) ++ fmtUnsigned v.natAbs v.natAbs [])

/-! ## Operations -/

/-- The function `makeIntParam` (lines 58-60): `fmt.Sprintf("&%v=%d", name, value)`. -/
def makeIntParam (name : String) (value : Int) : String :=
  "&" ++ name ++ "=" ++ fmtInteger value

/-- The function `makeExtraParams` (lines 62-68). The buffer starts empty and receives at
most one write. -/
def makeExtraParams (ups : upstream) : String :=
  let buffer : String := ""
  let buffer := if ups.MaxConns ≠ 0 then buffer ++ makeIntParam "max_conns" ups.MaxConns else buffer
  buffer

/-- The body of the loop `for _, ups := range cfg.Upstreams` (lines 85-98): the result is the
error of the first `return` that is reached, `none` when the loop runs to its end. -/
def validateUpstreams : List upstream → Option String
  | [] => none
  | ups :: rest =>
    if ups.Name = "" then some upstreamNameErrorMsg
    else if ups.AutoscalingGroup = "" then
      some (upstreamErrorMsgFormat "autoscaling_group" ups.Name)
    else if ups.Port = 0 then some (upstreamPortErrorMsgFormat ups.Name)
    else if ups.Kind = "" ∨ ¬(ups.Kind = "http" ∨ ups.Kind = "stream") then
      some (upstreamKindErrorMsgFormat ups.Name)
    else validateUpstreams rest

/-- The function `validateConfig` (lines 70-101) on a non-nil `cfg`. -/
def validateConfig (cfg : config) : Option String :=
  if cfg.Region = "" then some (errorMsgFormat "region")
  else if cfg.APIEndpoint = "" then some (errorMsgFormat "api_endpoint")
  else if cfg.SyncIntervalInSeconds = 0 then some intervalErrorMsg
  else if cfg.Upstreams.length = 0 then some noUpstreamsErrorMsg
  else validateUpstreams cfg.Upstreams

/-- The zero value `config{}`. -/
def zeroConfig : config :=
  { Region := "", APIEndpoint := "", SyncIntervalInSeconds := 0, Upstreams := [] }

/-- The function `unmarshalConfig` (lines 47-56). The library call `yaml.Unmarshal(data, &cfg)`
is the parameter `yamlUnmarshal`: it receives the bytes and the zero-valued `config{}` and
gives back the filled-in value together with its error. -/
def unmarshalConfig (yamlUnmarshal : List Nat → config → config × Option String)
    (data : List Nat) : Option config × Option String :=
  let cfg : config := zeroConfig
  match yamlUnmarshal data cfg with
  | (_, some err) => (none, some err)
  | (cfg, none) => (some cfg, none)

/-- The function `parseConfig` (lines 33-45). The outer `Option` is `none` when the call
would dereference a nil `cfg` inside `validateConfig`. -/
def parseConfig (yamlUnmarshal : List Nat → config → config × Option String)
    (data : List Nat) : Option (Option config × Option String) :=
  match unmarshalConfig yamlUnmarshal data with
  | (_, some err) => some (none, some err)
  | (none, none) => none
  | (some cfg, none) =>
    match validateConfig cfg with
    | some err => some (none, some err)
    | none => some (some cfg, none)

/-! ## Predicates used in the statements -/

/-- An upstream passes all four checks of the loop body. -/
def upstreamValid (u : upstream) : Prop :=
  u.Name ≠ "" ∧ u.AutoscalingGroup ≠ "" ∧ u.Port ≠ 0 ∧ (u.Kind = "http" ∨ u.Kind = "stream")

instance (u : upstream) : Decidable (upstreamValid u) := by
  unfold upstreamValid; infer_instance

/-- The three scalar fields of a configuration pass their checks. -/
def topLevelValid (c : config) : Prop :=
  c.Region ≠ "" ∧ c.APIEndpoint ≠ "" ∧ c.SyncIntervalInSeconds ≠ 0

instance (c : config) : Decidable (topLevelValid c) := by
  unfold topLevelValid; infer_instance

/-! ## Reference definitions, following the specification's wording -/

/-- The violations of one upstream in the order name, autoscaling_group, port, kind; each
check is made on its own, whatever the other checks found. -/
def upstreamViolations (u : upstream) : List String :=
  (if u.Name = "" then [upstreamNameErrorMsg] else []) ++
  (if u.AutoscalingGroup = "" then [upstreamErrorMsgFormat "autoscaling_group" u.Name] else []) ++
  (if u.Port = 0 then [upstreamPortErrorMsgFormat u.Name] else []) ++
  (if u.Kind = "http" ∨ u.Kind = "stream" then [] else [upstreamKindErrorMsgFormat u.Name])

/-- The violations of a sequence of upstreams, upstream after upstream. -/
def upstreamsViolations : List upstream → List String
  | [] => []
  | u :: rest => upstreamViolations u ++ upstreamsViolations rest

/-- The reference validator's list of ALL violations of a configuration, in the fixed order
region, api_endpoint, sync interval, upstream-list-non-empty, then the upstreams in sequence
order. -/
def allViolations (c : config) : List String :=
  (if c.Region = "" then [errorMsgFormat "region"] else []) ++
  (if c.APIEndpoint = "" then [errorMsgFormat "api_endpoint"] else []) ++
  (if c.SyncIntervalInSeconds = 0 then [intervalErrorMsg] else []) ++
  (if c.Upstreams = [] then [noUpstreamsErrorMsg] else []) ++
  upstreamsViolations c.Upstreams

/-- Two upstreams agree in every field other than `MaxConns`. -/
def sameExceptMaxConns (u v : upstream) : Prop :=
  u.Name = v.Name ∧ u.AutoscalingGroup = v.AutoscalingGroup ∧ u.Port = v.Port ∧ u.Kind = v.Kind

/-- The base-10 rendering of an integer: a minus sign when it is negative, then the decimal
digits of its magnitude, most significant first. -/
def base10 (v : Int) : String :=
  String.mk ((if v < 0 then ['-'] else []) ++ (Nat.digits 10 v.natAbs).reverse.map Nat.digitChar)

/-! ## Sample values -/

/-- A fully valid upstream. -/
def sampleUpstream : upstream :=
  { Name := "backend1", AutoscalingGroup := "backend-group", Port := 80, Kind := "http",
    MaxConns := 0 }

/-- A fully valid configuration with one upstream. -/
def sampleConfig : config :=
  { Region := "us-west-2", APIEndpoint := "http://127.0.0.1:8080/api",
    SyncIntervalInSeconds := 5, Upstreams := [sampleUpstream] }

/-- An upstream whose only defect is the kind "grpc". -/
def grpcUpstream : upstream :=
  { Name := "backend2", AutoscalingGroup := "backend-group-2", Port := 8443, Kind := "grpc",
    MaxConns := 0 }

/-- An upstream that fails every check of the loop body. -/
def emptyUpstream : upstream :=
  { Name := "", AutoscalingGroup := "", Port := 0, Kind := "", MaxConns := 0 }

/-- The sample configuration with a negative sync interval. -/
def negativeIntervalConfig : config :=
  { sampleConfig with SyncIntervalInSeconds := -1 }

/-- The sample configuration with a negative port on its upstream. -/
def negativePortConfig : config :=
  { sampleConfig with Upstreams := [{ sampleUpstream with Port := -1 }] }

/-- A stand-in for `yaml.Unmarshal`: empty input is a syntax error, the one-byte input `[1]`
decodes to the sample configuration, every other input leaves the zero value untouched. -/
def sampleYaml (data : List Nat) (cfg : config) : config × Option String :=
  if data = [] then (cfg, some "yaml: unexpected end of input")
  else if data = [1] then (sampleConfig, none)
  else (cfg, none)

/-- The sample configuration with the upstream of kind "grpc" added as its second upstream. -/
def grpcConfig : config :=
  { sampleConfig with Upstreams := [sampleUpstream, grpcUpstream] }

/-- The text of the kind error for the upstream named "backend2". -/
def grpcKindErrorMsg : String :=
  "The mandatory field kind is either not equal to http or tcp or missing for the upstream backend2 in the config file"

/-- An upstream whose only defect is an empty name. -/
def namelessUpstream : upstream :=
  { Name := "", AutoscalingGroup := "backend-group-5", Port := 8080, Kind := "stream",
    MaxConns := 0 }

/-- A fully valid upstream of kind "stream". -/
def streamUpstream : upstream :=
  { Name := "backend3", AutoscalingGroup := "backend-group-3", Port := 53, Kind := "stream",
    MaxConns := 0 }

/-- An upstream of kind "tcp", the second kind that the text of `upstreamKindErrorMsgFormat`
names. -/
def tcpUpstream : upstream :=
  { Name := "backend4", AutoscalingGroup := "backend-group-4", Port := 3306, Kind := "tcp",
    MaxConns := 0 }

/-- The sample configuration with a second upstream that has the name of the first. -/
def duplicateNameConfig : config :=
  { sampleConfig with
    Upstreams := [sampleUpstream, { streamUpstream with Name := "backend1" }] }

/-- A configuration with the single upstream of kind "tcp". -/
def tcpConfig : config :=
  { sampleConfig with Upstreams := [tcpUpstream] }

/-- A configuration with the single upstream of kind "stream". -/
def streamConfig : config :=
  { sampleConfig with Upstreams := [streamUpstream] }

/-! ## Lemmas on the upstream loop -/

theorem validateUpstreams_eq_none_iff (l : List upstream) :
    validateUpstreams l = none ↔ ∀ u ∈ l, upstreamValid u := by
  induction l with
  | nil => simp [validateUpstreams]
  | cons u rest ih =>
    simp only [validateUpstreams, List.mem_cons, forall_eq_or_imp]
    by_cases h1 : u.Name = ""
    · simp [h1, upstreamValid]
    by_cases h2 : u.AutoscalingGroup = ""
    · simp [h1, h2, upstreamValid]
    by_cases h3 : u.Port = 0
    · simp [h1, h2, h3, upstreamValid]
    by_cases h4 : u.Kind = "http" ∨ u.Kind = "stream"
    · have h5 : u.Kind ≠ "" := by
        rcases h4 with h | h <;> rw [h] <;> decide
      simp only [h1, h2, h3, h4, h5, if_false, not_true_eq_false, or_self, ih]
      simp [upstreamValid, h1, h2, h3, h4]
    · simp only [h1, h2, h3, h4, if_false, not_false_eq_true, or_true, if_true]
      simp [upstreamValid, h4]

theorem validateConfig_of_topLevelValid (c : config) (h : topLevelValid c)
    (hne : c.Upstreams ≠ []) : validateConfig c = validateUpstreams c.Upstreams := by
  obtain ⟨h1, h2, h3⟩ := h
  have h4 : c.Upstreams.length ≠ 0 := fun h0 => hne (List.length_eq_zero.mp h0)
  simp [validateConfig, h1, h2, h3, h4]

theorem validateConfig_accepts_iff (c : config) :
    validateConfig c = none ↔
      topLevelValid c ∧ c.Upstreams ≠ [] ∧ ∀ u ∈ c.Upstreams, upstreamValid u := by
  unfold validateConfig topLevelValid
  by_cases h1 : c.Region = ""
  · simp [h1]
  by_cases h2 : c.APIEndpoint = ""
  · simp [h1, h2]
  by_cases h3 : c.SyncIntervalInSeconds = 0
  · simp [h1, h2, h3]
  by_cases h4 : c.Upstreams = []
  · simp [h1, h2, h3, h4]
  · have h5 : c.Upstreams.length ≠ 0 := fun h0 => h4 (List.length_eq_zero.mp h0)
    simp only [h1, h2, h3, h4, h5, if_false, ne_eq, not_false_eq_true, true_and]
    exact validateUpstreams_eq_none_iff c.Upstreams

theorem validateUpstreams_eq_head (l : List upstream) :
    validateUpstreams l = (upstreamsViolations l).head? := by
  induction l with
  | nil => rfl
  | cons u rest ih =>
    simp only [validateUpstreams, upstreamsViolations, upstreamViolations]
    by_cases h1 : u.Name = ""
    · simp [h1]
    by_cases h2 : u.AutoscalingGroup = ""
    · simp [h1, h2]
    by_cases h3 : u.Port = 0
    · simp [h1, h2, h3]
    by_cases h4 : u.Kind = "http" ∨ u.Kind = "stream"
    · have h5 : u.Kind ≠ "" := by
        rcases h4 with h | h <;> rw [h] <;> decide
      simp [h1, h2, h3, h4, h5, ih]
    · simp [h1, h2, h3, h4]

theorem validateConfig_eq_head (c : config) :
    validateConfig c = (allViolations c).head? := by
  unfold validateConfig allViolations
  by_cases h1 : c.Region = ""
  · simp [h1]
  by_cases h2 : c.APIEndpoint = ""
  · simp [h1, h2]
  by_cases h3 : c.SyncIntervalInSeconds = 0
  · simp [h1, h2, h3]
  by_cases h4 : c.Upstreams = []
  · simp [h1, h2, h3, h4]
  · have h5 : c.Upstreams.length ≠ 0 := fun h0 => h4 (List.length_eq_zero.mp h0)
    simp [h1, h2, h3, h4, h5, validateUpstreams_eq_head]

theorem unmarshalConfig_cases (y : List Nat → config → config × Option String)
    (data : List Nat) :
    (∃ e, unmarshalConfig y data = (none, some e)) ∨
      (∃ c, unmarshalConfig y data = (some c, none)) := by
  unfold unmarshalConfig
  rcases hres : y data zeroConfig with ⟨c, _ | e⟩
  · exact Or.inr ⟨c, by simp [hres]⟩
  · exact Or.inl ⟨e, by simp [hres]⟩

theorem fmtDigit_eq_digitChar (d : Nat) (h : d < 10) : fmtDigit d = Nat.digitChar d := by
  interval_cases d <;> rfl

theorem fmtUnsigned_eq_digits (fuel : Nat) :
    ∀ (u : Nat) (acc : List Char), 0 < u → u ≤ fuel →
      fmtUnsigned fuel u acc = (Nat.digits 10 u).reverse.map Nat.digitChar ++ acc := by
  induction fuel with
  | zero => intro u acc h0 h1; omega
  | succ fuel ih =>
    intro u acc h0 h1
    unfold fmtUnsigned
    by_cases h10 : 10 ≤ u
    · have hq0 : 0 < u / 10 := Nat.div_pos h10 (by decide)
      have hq1 : u / 10 ≤ fuel := by omega
      have hm : u % 10 < 10 := Nat.mod_lt u (by decide)
      rw [if_pos h10, ih (u / 10) _ hq0 hq1, Nat.digits_def' (by decide : 1 < 10) h0,
        fmtDigit_eq_digitChar _ hm]
      simp
    · have hlt : u < 10 := Nat.lt_of_not_le h10
      rw [if_neg h10, Nat.digits_of_lt 10 u (Nat.pos_iff_ne_zero.mp h0) hlt,
        fmtDigit_eq_digitChar _ hlt]
      simp

theorem fmtInteger_eq_base10 (v : Int) (h : v ≠ 0) : fmtInteger v = base10 v := by
  unfold fmtInteger base10
  have h0 : 0 < v.natAbs := Int.natAbs_pos.mpr h
  rw [fmtUnsigned_eq_digits v.natAbs v.natAbs [] h0 (le_refl _)]
  simp

theorem makeExtraParams_eq (u : upstream) :
    makeExtraParams u =
      if u.MaxConns = 0 then "" else "&max_conns=" ++ fmtInteger u.MaxConns := by
  unfold makeExtraParams makeIntParam
  by_cases h : u.MaxConns = 0
  · simp [h]
  · have hlit : ("&" ++ "max_conns" ++ "=" : String) = "&max_conns=" := by decide
    simp only [ne_eq, h, not_false_eq_true, if_true, if_false, hlit, String.empty_append]

theorem validateUpstreams_append_of_valid (pre l : List upstream)
    (h : ∀ p ∈ pre, upstreamValid p) :
    validateUpstreams (pre ++ l) = validateUpstreams l := by
  induction pre with
  | nil => rfl
  | cons p pre ih =>
    have hp : upstreamValid p := h p (List.mem_cons_self _ _)
    have hrest : ∀ q ∈ pre, upstreamValid q := fun q hq => h q (List.mem_cons_of_mem _ hq)
    obtain ⟨h1, h2, h3, h4⟩ := hp
    have h5 : p.Kind ≠ "" := by
      rcases h4 with h | h <;> rw [h] <;> decide
    simp only [List.cons_append, validateUpstreams, h1, h2, h3, h4, h5, if_false,
      not_true_eq_false, or_self]
    exact ih hrest

theorem validateUpstreams_in_catalog (l : List upstream) (m : String)
    (h : validateUpstreams l = some m) :
    m = upstreamNameErrorMsg ∨
      ∃ u ∈ l, u.Name ≠ "" ∧
        (m = upstreamErrorMsgFormat "autoscaling_group" u.Name ∨
          m = upstreamPortErrorMsgFormat u.Name ∨ m = upstreamKindErrorMsgFormat u.Name) := by
  induction l with
  | nil => simp [validateUpstreams] at h
  | cons u rest ih =>
    simp only [validateUpstreams] at h
    by_cases h1 : u.Name = ""
    · rw [if_pos h1] at h
      exact Or.inl (Option.some.inj h).symm
    rw [if_neg h1] at h
    by_cases h2 : u.AutoscalingGroup = ""
    · rw [if_pos h2] at h
      exact Or.inr ⟨u, List.mem_cons_self _ _, h1, Or.inl (Option.some.inj h).symm⟩
    rw [if_neg h2] at h
    by_cases h3 : u.Port = 0
    · rw [if_pos h3] at h
      exact Or.inr ⟨u, List.mem_cons_self _ _, h1, Or.inr (Or.inl (Option.some.inj h).symm)⟩
    rw [if_neg h3] at h
    by_cases h4 : u.Kind = "" ∨ ¬(u.Kind = "http" ∨ u.Kind = "stream")
    · rw [if_pos h4] at h
      exact Or.inr ⟨u, List.mem_cons_self _ _, h1, Or.inr (Or.inr (Option.some.inj h).symm)⟩
    rw [if_neg h4] at h
    rcases ih h with hm | ⟨v, hv, hrest⟩
    · exact Or.inl hm
    · exact Or.inr ⟨v, List.mem_cons_of_mem _ hv, hrest⟩

theorem validateUpstreams_congr (l l' : List upstream)
    (h : List.Forall₂ sameExceptMaxConns l l') :
    validateUpstreams l = validateUpstreams l' := by
  induction h with
  | nil => rfl
  | cons huv _ ih =>
    obtain ⟨h1, h2, h3, h4⟩ := huv
    simp only [validateUpstreams, h1, h2, h3, h4, ih]

theorem sameExceptMaxConns_map (f : upstream → Int) (l : List upstream) :
    List.Forall₂ sameExceptMaxConns l (l.map fun u => { u with MaxConns := f u }) := by
  induction l with
  | nil => exact List.Forall₂.nil
  | cons u rest ih => exact List.Forall₂.cons ⟨rfl, rfl, rfl, rfl⟩ ih

/-! ## Lemmas on the decimal rendering -/

theorem digitChar_ne_minus (d : Nat) (h : d < 10) : Nat.digitChar d ≠ '-' := by
  interval_cases d <;> decide

theorem digitChar_inj (a b : Nat) (ha : a < 10) (hb : b < 10)
    (h : Nat.digitChar a = Nat.digitChar b) : a = b := by
  interval_cases a <;> interval_cases b <;> first | rfl | exact absurd h (by decide)

theorem map_digitChar_inj (l1 : List Nat) :
    ∀ l2 : List Nat, (∀ d ∈ l1, d < 10) → (∀ d ∈ l2, d < 10) →
      l1.map Nat.digitChar = l2.map Nat.digitChar → l1 = l2 := by
  induction l1 with
  | nil =>
    intro l2 _ _ h
    cases l2 with
    | nil => rfl
    | cons b l2 => simp at h
  | cons a l1 ih =>
    intro l2 h1 h2 h
    cases l2 with
    | nil => simp at h
    | cons b l2 =>
      simp only [List.map_cons, List.cons.injEq] at h
      have hab : a = b :=
        digitChar_inj a b (h1 a (List.mem_cons_self _ _)) (h2 b (List.mem_cons_self _ _)) h.1
      have htl : l1 = l2 :=
        ih l2 (fun d hd => h1 d (List.mem_cons_of_mem _ hd))
          (fun d hd => h2 d (List.mem_cons_of_mem _ hd)) h.2
      rw [hab, htl]

theorem minus_not_mem_digits (l : List Nat) (hl : ∀ d ∈ l, d < 10) :
    '-' ∉ l.map Nat.digitChar := by
  intro hmem
  obtain ⟨d, hd, hc⟩ := List.mem_map.mp hmem
  exact digitChar_ne_minus d (hl d hd) hc

theorem reverse_digits_lt (n : Nat) : ∀ d ∈ (Nat.digits 10 n).reverse, d < 10 := by
  intro d hd
  exact Nat.digits_lt_base (by decide) (List.mem_reverse.mp hd)

theorem base10_injective (a b : Int) (h : base10 a = base10 b) : a = b := by
  unfold base10 at h
  have hdata := congrArg String.data h
  simp only [] at hdata
  have ha := reverse_digits_lt a.natAbs
  have hb := reverse_digits_lt b.natAbs
  have hfin : (Nat.digits 10 a.natAbs).reverse.map Nat.digitChar =
      (Nat.digits 10 b.natAbs).reverse.map Nat.digitChar → a.natAbs = b.natAbs := by
    intro hm
    have hrev := map_digitChar_inj _ _ ha hb hm
    exact Nat.digits_inj_iff.mp (List.reverse_injective hrev)
  by_cases hna : a < 0 <;> by_cases hnb : b < 0
  · simp only [hna, hnb, if_true, List.singleton_append, List.cons.injEq, true_and] at hdata
    have := hfin hdata
    omega
  · simp only [hna, hnb, if_true, if_false, List.singleton_append, List.nil_append] at hdata
    exact absurd (hdata ▸ List.mem_cons_self _ _) (minus_not_mem_digits _ hb)
  · simp only [hna, hnb, if_true, if_false, List.singleton_append, List.nil_append] at hdata
    exact absurd (hdata ▸ List.mem_cons_self _ _) (minus_not_mem_digits _ ha)
  · simp only [hna, hnb, if_false, List.nil_append] at hdata
    have := hfin hdata
    omega

theorem string_append_left_cancel (p s t : String) (h : p ++ s = p ++ t) : s = t := by
  have hd := congrArg String.data h
  rw [String.data_append, String.data_append] at hd
  exact String.ext (List.append_cancel_left hd)

theorem makeExtraParams_eq_empty_iff (u : upstream) :
    makeExtraParams u = "" ↔ u.MaxConns = 0 := by
  rw [makeExtraParams_eq]
  by_cases h : u.MaxConns = 0
  · simp [h]
  · simp only [h, if_false, iff_false]
    intro hcontra
    have hd := congrArg String.data hcontra
    rw [String.data_append] at hd
    exact absurd hd (by simp)

/-! ## Claims -/

/-- C1: `validateConfig c` returns no error exactly when `Region` and `APIEndpoint` are
non-empty, `SyncIntervalInSeconds` is not zero, `Upstreams` has at least one element, and every
upstream has a non-empty `Name`, a non-empty `AutoscalingGroup`, a `Port` other than zero and a
`Kind` that is exactly "http" or exactly "stream". -/
theorem validateConfig_eq_none_iff (c : config) :
    validateConfig c = none ↔
      c.Region ≠ "" ∧ c.APIEndpoint ≠ "" ∧ c.SyncIntervalInSeconds ≠ 0 ∧
        1 ≤ c.Upstreams.length ∧
        ∀ u ∈ c.Upstreams, u.Name ≠ "" ∧ u.AutoscalingGroup ≠ "" ∧ u.Port ≠ 0 ∧
          (u.Kind = "http" ∨ u.Kind = "stream") := by
  rw [validateConfig_accepts_iff]
  have hlen : c.Upstreams ≠ [] ↔ 1 ≤ c.Upstreams.length := by
    rw [Nat.one_le_iff_ne_zero, ne_eq, ne_eq, List.length_eq_zero]
  simp only [topLevelValid, upstreamValid, hlen, and_assoc]

/-- C2: the error returned by `validateConfig c` is the first element of the list of all
violations of `c`, enumerated in the order region, api_endpoint, sync interval,
upstream-list-non-empty, then upstream by upstream name, autoscaling_group, port, kind; and
`validateConfig c` returns no error exactly when that list is empty. -/
theorem validateConfig_refines_allViolations (c : config) :
    validateConfig c = (allViolations c).head? ∧
      (validateConfig c = none ↔ allViolations c = []) := by
  refine ⟨validateConfig_eq_head c, ?_⟩
  rw [validateConfig_eq_head]
  cases allViolations c <;> simp

/-- C3: for every deserializer and every input, `parseConfig` returns a result (it never
dereferences a nil configuration), and: when the deserializer fails with `e` the result is no
configuration and exactly `e`; when the deserializer yields `c` and `validateConfig c` fails
with `e` the result is no configuration and exactly `e`; when the deserializer yields `c` and
`validateConfig c` succeeds the result is exactly `c` with no error. Every configuration that
is returned passes `validateConfig`, and a configuration and an error are never returned
together. -/
theorem parseConfig_spec (y : List Nat → config → config × Option String) (data : List Nat) :
    (∃ r, parseConfig y data = some r) ∧
    (∀ e, (unmarshalConfig y data).2 = some e → parseConfig y data = some (none, some e)) ∧
    (∀ c e, unmarshalConfig y data = (some c, none) → validateConfig c = some e →
      parseConfig y data = some (none, some e)) ∧
    (∀ c, unmarshalConfig y data = (some c, none) → validateConfig c = none →
      parseConfig y data = some (some c, none)) ∧
    (∀ c oe, parseConfig y data = some (some c, oe) →
      oe = none ∧ validateConfig c = none ∧ unmarshalConfig y data = (some c, none)) := by
  rcases unmarshalConfig_cases y data with ⟨e, he⟩ | ⟨c, hc⟩
  · refine ⟨⟨(none, some e), by simp [parseConfig, he]⟩, ?_, ?_, ?_, ?_⟩
    · intro e2 h2
      rw [he] at h2
      simp only [Option.some.injEq] at h2
      simp [parseConfig, he, h2]
    · intro c2 e2 h2; rw [he] at h2; simp at h2
    · intro c2 h2; rw [he] at h2; simp at h2
    · intro c2 oe h2; simp [parseConfig, he] at h2
  · cases hv : validateConfig c with
    | none =>
      refine ⟨⟨(some c, none), by simp [parseConfig, hc, hv]⟩, ?_, ?_, ?_, ?_⟩
      · intro e2 h2; rw [hc] at h2; simp at h2
      · intro c2 e2 h2 h3
        rw [hc] at h2
        simp only [Prod.mk.injEq, Option.some.injEq, and_true] at h2
        rw [← h2, hv] at h3
        simp at h3
      · intro c2 h2 _
        rw [hc] at h2
        simp only [Prod.mk.injEq, Option.some.injEq, and_true] at h2
        subst h2
        simp [parseConfig, hc, hv]
      · intro c2 oe h2
        simp only [parseConfig, hc, hv, Option.some.injEq, Prod.mk.injEq] at h2
        obtain ⟨h3, h4⟩ := h2
        subst h3
        exact ⟨h4.symm, hv, hc⟩
    | some e =>
      refine ⟨⟨(none, some e), by simp [parseConfig, hc, hv]⟩, ?_, ?_, ?_, ?_⟩
      · intro e2 h2; rw [hc] at h2; simp at h2
      · intro c2 e2 h2 h3
        rw [hc] at h2
        simp only [Prod.mk.injEq, Option.some.injEq, and_true] at h2
        rw [← h2, hv] at h3
        simp only [Option.some.injEq] at h3
        simp [parseConfig, hc, hv, h3]
      · intro c2 h2 h3
        rw [hc] at h2
        simp only [Prod.mk.injEq, Option.some.injEq, and_true] at h2
        rw [← h2, hv] at h3
        simp at h3
      · intro c2 oe h2
        simp [parseConfig, hc, hv] at h2

/-- C3 at concrete inputs: a syntax error is passed on, an invalid configuration is rejected
with the validator's message, a valid one is returned as it is. -/
theorem parseConfig_spec_witness :
    (unmarshalConfig sampleYaml []).2 = some "yaml: unexpected end of input" ∧
    parseConfig sampleYaml [] = some (none, some "yaml: unexpected end of input") ∧
    parseConfig sampleYaml [2] = some (none, some (errorMsgFormat "region")) ∧
    parseConfig sampleYaml [1] = some (some sampleConfig, none) ∧
    validateConfig sampleConfig = none :=
  ⟨by decide,
   (parseConfig_spec sampleYaml []).2.1 _ (by decide),
   (parseConfig_spec sampleYaml [2]).2.2.1 zeroConfig _ (by decide) (by decide),
   (parseConfig_spec sampleYaml [1]).2.2.2.1 sampleConfig (by decide) (by decide),
   ((parseConfig_spec sampleYaml [1]).2.2.2.2 sampleConfig none (by decide)).2.1⟩

/-- C4: `makeExtraParams u` is the empty string when `u.MaxConns` is zero and is "&max_conns="
followed by the base-10 rendering of `u.MaxConns` (minus sign first for a negative value) when
it is not zero; two upstreams with the same `MaxConns` give the same string; `MaxConns` 0 gives
the empty string and `MaxConns` 100 gives "&max_conns=100". -/
theorem makeExtraParams_spec (u : upstream) :
    (u.MaxConns = 0 → makeExtraParams u = "") ∧
    (u.MaxConns ≠ 0 → makeExtraParams u = "&max_conns=" ++ base10 u.MaxConns) ∧
    (∀ v : upstream, v.MaxConns = u.MaxConns → makeExtraParams v = makeExtraParams u) ∧
    makeExtraParams { u with MaxConns := 0 } = "" ∧
    makeExtraParams { u with MaxConns := 100 } = "&max_conns=100" := by
  refine ⟨?_, ?_, ?_, ?_, ?_⟩
  · intro h; simp [makeExtraParams_eq, h]
  · intro h; simp [makeExtraParams_eq, h, fmtInteger_eq_base10 _ h]
  · intro v h; simp [makeExtraParams_eq, h]
  · simp [makeExtraParams_eq]
  · rw [makeExtraParams_eq]; dsimp only; decide

/-- C4 at concrete inputs: `MaxConns` zero, and a negative `MaxConns`. -/
theorem makeExtraParams_spec_witness :
    makeExtraParams sampleUpstream = "" ∧
    makeExtraParams { sampleUpstream with MaxConns := -25 } = "&max_conns=" ++ base10 (-25) ∧
    makeExtraParams { sampleUpstream with MaxConns := -25 } = "&max_conns=-25" :=
  ⟨(makeExtraParams_spec sampleUpstream).1 (by decide),
   (makeExtraParams_spec { sampleUpstream with MaxConns := -25 }).2.1 (by decide),
   by decide⟩

/-- C5 as stated, refuted: the configuration with all fields valid except a sync interval of
-1 is accepted by `validateConfig`, and its sync interval is not strictly greater than zero. -/
theorem validateConfig_accepts_negative_interval :
    validateConfig negativeIntervalConfig = none ∧
      ¬ (0 < negativeIntervalConfig.SyncIntervalInSeconds) := by
  decide

/-- C5, amended: for every configuration that `validateConfig` accepts,
`SyncIntervalInSeconds` is not zero. -/
theorem validateConfig_interval_ne_zero (c : config) (h : validateConfig c = none) :
    c.SyncIntervalInSeconds ≠ 0 :=
  ((validateConfig_accepts_iff c).mp h).1.2.2

/-- C5, amended, at the sample configuration. -/
theorem validateConfig_interval_ne_zero_witness :
    validateConfig sampleConfig = none ∧ sampleConfig.SyncIntervalInSeconds ≠ 0 :=
  ⟨by decide, validateConfig_interval_ne_zero sampleConfig (by decide)⟩

/-- C6 as stated, refuted: the configuration whose single upstream is valid except for the
port -1 is accepted by `validateConfig`, and that port is not strictly greater than zero. -/
theorem validateConfig_accepts_negative_port :
    validateConfig negativePortConfig = none ∧
      ¬ (∀ u ∈ negativePortConfig.Upstreams, 0 < u.Port) := by
  decide

/-- C6, amended: for every configuration that `validateConfig` accepts, every upstream has a
`Port` that is not zero. -/
theorem validateConfig_port_ne_zero (c : config) (h : validateConfig c = none) :
    ∀ u ∈ c.Upstreams, u.Port ≠ 0 :=
  fun u hu => (((validateConfig_accepts_iff c).mp h).2.2 u hu).2.2.1

/-- C6, amended, at the sample configuration. -/
theorem validateConfig_port_ne_zero_witness :
    validateConfig sampleConfig = none ∧ ∀ u ∈ sampleConfig.Upstreams, u.Port ≠ 0 :=
  ⟨by decide, validateConfig_port_ne_zero sampleConfig (by decide)⟩

/-- C7: when `Region` is the empty string, `validateConfig` fails with exactly "The mandatory
field region is either empty or missing in the config file", whatever the other fields are. -/
theorem validateConfig_region_empty (c : config) (h : c.Region = "") :
    validateConfig c =
      some "The mandatory field region is either empty or missing in the config file" := by
  have hmsg : errorMsgFormat "region" =
      "The mandatory field region is either empty or missing in the config file" := by decide
  simp [validateConfig, h, hmsg]

/-- C7 at concrete inputs: no region with an empty upstream list, and no region with every
other field invalid as well. -/
theorem validateConfig_region_empty_witness :
    validateConfig { sampleConfig with Region := "", Upstreams := [] } =
        some "The mandatory field region is either empty or missing in the config file" ∧
      validateConfig { zeroConfig with Upstreams := [emptyUpstream] } =
        some "The mandatory field region is either empty or missing in the config file" :=
  ⟨validateConfig_region_empty { sampleConfig with Region := "", Upstreams := [] } (by decide),
   validateConfig_region_empty { zeroConfig with Upstreams := [emptyUpstream] } (by decide)⟩

/-- C8: when `Region` and `APIEndpoint` are non-empty and `SyncIntervalInSeconds` is zero,
`validateConfig` fails with exactly "The mandatory field sync_interval_in_seconds is either 0
or missing in the config file", for every value of `Upstreams`. -/
theorem validateConfig_interval_zero (c : config) (hr : c.Region ≠ "")
    (ha : c.APIEndpoint ≠ "") (hs : c.SyncIntervalInSeconds = 0) :
    validateConfig c = some
      "The mandatory field sync_interval_in_seconds is either 0 or missing in the config file" := by
  have hmsg : intervalErrorMsg =
      "The mandatory field sync_interval_in_seconds is either 0 or missing in the config file" :=
    rfl
  simp [validateConfig, hr, ha, hs, hmsg]

/-- C8 at concrete inputs: a zero interval with an empty upstream list, and a zero interval
with an upstream that fails every check. -/
theorem validateConfig_interval_zero_witness :
    validateConfig { sampleConfig with SyncIntervalInSeconds := 0, Upstreams := [] } = some
        "The mandatory field sync_interval_in_seconds is either 0 or missing in the config file" ∧
      validateConfig
          { sampleConfig with SyncIntervalInSeconds := 0, Upstreams := [emptyUpstream] } = some
        "The mandatory field sync_interval_in_seconds is either 0 or missing in the config file" :=
  ⟨validateConfig_interval_zero { sampleConfig with SyncIntervalInSeconds := 0, Upstreams := [] }
     (by decide) (by decide) (by decide),
   validateConfig_interval_zero
     { sampleConfig with SyncIntervalInSeconds := 0, Upstreams := [emptyUpstream] }
     (by decide) (by decide) (by decide)⟩

/-- C9: when `Region` and `APIEndpoint` are non-empty, `SyncIntervalInSeconds` is not zero and
`Upstreams` is empty, `validateConfig` fails with exactly "There is no upstreams found in the
config file". -/
theorem validateConfig_no_upstreams (c : config) (hr : c.Region ≠ "")
    (ha : c.APIEndpoint ≠ "") (hs : c.SyncIntervalInSeconds ≠ 0) (hu : c.Upstreams = []) :
    validateConfig c = some "There is no upstreams found in the config file" := by
  have hmsg : noUpstreamsErrorMsg = "There is no upstreams found in the config file" := rfl
  simp [validateConfig, hr, ha, hs, hu, hmsg]

/-- C9 at the sample configuration with its upstreams removed. -/
theorem validateConfig_no_upstreams_witness :
    validateConfig { sampleConfig with Upstreams := [] } =
      some "There is no upstreams found in the config file" :=
  validateConfig_no_upstreams { sampleConfig with Upstreams := [] }
    (by decide) (by decide) (by decide) (by decide)

/-- C10: when the top-level fields are valid and `Upstreams` is `pre ++ [u] ++ rest` with every
upstream of `pre` fully valid and `u` having a non-empty `Name`, a non-empty
`AutoscalingGroup`, a non-zero `Port` and a `Kind` that is neither "http" nor "stream",
`validateConfig` fails with exactly "The mandatory field kind is either not equal to http or
tcp or missing for the upstream " followed by `u.Name` and " in the config file", for every
`rest`. -/
theorem validateConfig_kind_error (c : config) (pre rest : List upstream) (u : upstream)
    (hr : c.Region ≠ "") (ha : c.APIEndpoint ≠ "") (hs : c.SyncIntervalInSeconds ≠ 0)
    (hups : c.Upstreams = pre ++ [u] ++ rest)
    (hpre : ∀ p ∈ pre, p.Name ≠ "" ∧ p.AutoscalingGroup ≠ "" ∧ p.Port ≠ 0 ∧
      (p.Kind = "http" ∨ p.Kind = "stream"))
    (hn : u.Name ≠ "") (hg : u.AutoscalingGroup ≠ "") (hp : u.Port ≠ 0)
    (hk : u.Kind ≠ "http" ∧ u.Kind ≠ "stream") :
    validateConfig c = some
      ("The mandatory field kind is either not equal to http or tcp or missing for the upstream "
        ++ u.Name ++ " in the config file") := by
  have hne : c.Upstreams ≠ [] := by rw [hups]; simp
  rw [validateConfig_of_topLevelValid c ⟨hr, ha, hs⟩ hne, hups, List.append_assoc,
    validateUpstreams_append_of_valid pre _ hpre]
  have hk2 : ¬(u.Kind = "http" ∨ u.Kind = "stream") := fun h => h.elim hk.1 hk.2
  simp [validateUpstreams, hn, hg, hp, hk2, upstreamKindErrorMsgFormat]

/-- C10 at concrete inputs: upstream #1 fully valid and upstream #2 of kind "grpc", once as
the last upstream and once followed by an upstream that fails every check; the message names
upstream #2 both times. -/
theorem validateConfig_kind_error_witness :
    validateConfig { sampleConfig with Upstreams := [sampleUpstream, grpcUpstream] } = some
        ("The mandatory field kind is either not equal to http or tcp or missing for the " ++
          "upstream backend2 in the config file") ∧
      validateConfig
          { sampleConfig with Upstreams := [sampleUpstream, grpcUpstream, emptyUpstream] } = some
        ("The mandatory field kind is either not equal to http or tcp or missing for the " ++
          "upstream backend2 in the config file") :=
  ⟨validateConfig_kind_error { sampleConfig with Upstreams := [sampleUpstream, grpcUpstream] }
     [sampleUpstream] [] grpcUpstream (by decide) (by decide) (by decide) (by decide)
     (by decide) (by decide) (by decide) (by decide) (by decide),
   validateConfig_kind_error
     { sampleConfig with Upstreams := [sampleUpstream, grpcUpstream, emptyUpstream] }
     [sampleUpstream] [emptyUpstream] grpcUpstream (by decide) (by decide) (by decide)
     (by decide) (by decide) (by decide) (by decide) (by decide) (by decide)⟩

/-- C11: when the top-level fields are valid and `Upstreams` is `pre ++ [u] ++ rest` with every
upstream of `pre` fully valid and `u.Name` empty, `validateConfig` fails with exactly "The
mandatory field name is either empty or missing for an upstream in the config file", whatever
the `AutoscalingGroup`, `Port` and `Kind` of `u` are; the message is a constant that refers to
no upstream name. -/
theorem validateConfig_name_error (c : config) (pre rest : List upstream) (u : upstream)
    (hr : c.Region ≠ "") (ha : c.APIEndpoint ≠ "") (hs : c.SyncIntervalInSeconds ≠ 0)
    (hups : c.Upstreams = pre ++ [u] ++ rest)
    (hpre : ∀ p ∈ pre, p.Name ≠ "" ∧ p.AutoscalingGroup ≠ "" ∧ p.Port ≠ 0 ∧
      (p.Kind = "http" ∨ p.Kind = "stream"))
    (hn : u.Name = "") :
    validateConfig c = some
      "The mandatory field name is either empty or missing for an upstream in the config file" := by
  have hne : c.Upstreams ≠ [] := by rw [hups]; simp
  have hmsg : upstreamNameErrorMsg =
      "The mandatory field name is either empty or missing for an upstream in the config file" :=
    rfl
  rw [validateConfig_of_topLevelValid c ⟨hr, ha, hs⟩ hne, hups, List.append_assoc,
    validateUpstreams_append_of_valid pre _ hpre]
  simp [validateUpstreams, hn, hmsg]

/-- C11 at concrete inputs: after one valid upstream, an upstream with every field invalid and
an upstream whose only defect is the empty name give the same generic message. -/
theorem validateConfig_name_error_witness :
    validateConfig { sampleConfig with Upstreams := [sampleUpstream, emptyUpstream] } = some
        "The mandatory field name is either empty or missing for an upstream in the config file" ∧
      validateConfig
          { sampleConfig with Upstreams := [sampleUpstream, namelessUpstream, grpcUpstream] } =
        some
        "The mandatory field name is either empty or missing for an upstream in the config file" :=
  ⟨validateConfig_name_error { sampleConfig with Upstreams := [sampleUpstream, emptyUpstream] }
     [sampleUpstream] [] emptyUpstream (by decide) (by decide) (by decide) (by decide)
     (by decide) (by decide),
   validateConfig_name_error
     { sampleConfig with Upstreams := [sampleUpstream, namelessUpstream, grpcUpstream] }
     [sampleUpstream] [grpcUpstream] namelessUpstream (by decide) (by decide) (by decide)
     (by decide) (by decide) (by decide)⟩

/-- C12: every message that `validateConfig c` fails with belongs to the fixed catalog: the
top-level template with "region" or "api_endpoint", the interval message, the no-upstreams
message, the generic upstream-name message, or the autoscaling_group, port or kind template
with a name `n`, where `n` is the non-empty `Name` of an upstream occurring in `c.Upstreams`. -/
theorem validateConfig_error_in_catalog (c : config) (m : String)
    (h : validateConfig c = some m) :
    m = "The mandatory field region is either empty or missing in the config file" ∨
    m = "The mandatory field api_endpoint is either empty or missing in the config file" ∨
    m = "The mandatory field sync_interval_in_seconds is either 0 or missing in the config file" ∨
    m = "There is no upstreams found in the config file" ∨
    m = "The mandatory field name is either empty or missing for an upstream in the config file" ∨
    ∃ u ∈ c.Upstreams, u.Name ≠ "" ∧
      (m = "The mandatory field autoscaling_group is either empty or missing for the upstream "
            ++ u.Name ++ " in the config file" ∨
        m = "The mandatory field port is either zero or missing for the upstream "
            ++ u.Name ++ " in the config file" ∨
        m = "The mandatory field kind is either not equal to http or tcp or missing for the upstream "
            ++ u.Name ++ " in the config file") := by
  have hreg : errorMsgFormat "region" =
      "The mandatory field region is either empty or missing in the config file" := by decide
  have hapi : errorMsgFormat "api_endpoint" =
      "The mandatory field api_endpoint is either empty or missing in the config file" := by
    decide
  have hint : intervalErrorMsg =
      "The mandatory field sync_interval_in_seconds is either 0 or missing in the config file" :=
    rfl
  have hnone : noUpstreamsErrorMsg = "There is no upstreams found in the config file" := rfl
  have hname : upstreamNameErrorMsg =
      "The mandatory field name is either empty or missing for an upstream in the config file" :=
    rfl
  have hlit : ("The mandatory field " ++ "autoscaling_group" ++
      " is either empty or missing for the upstream " : String) =
      "The mandatory field autoscaling_group is either empty or missing for the upstream " := by
    decide
  have hgrp : ∀ n : String, upstreamErrorMsgFormat "autoscaling_group" n =
      "The mandatory field autoscaling_group is either empty or missing for the upstream "
        ++ n ++ " in the config file" := by
    intro n
    unfold upstreamErrorMsgFormat
    rw [hlit]
  have hport : ∀ n : String, upstreamPortErrorMsgFormat n =
      "The mandatory field port is either zero or missing for the upstream "
        ++ n ++ " in the config file" := fun _ => rfl
  have hkind : ∀ n : String, upstreamKindErrorMsgFormat n =
      "The mandatory field kind is either not equal to http or tcp or missing for the upstream "
        ++ n ++ " in the config file" := fun _ => rfl
  unfold validateConfig at h
  by_cases h1 : c.Region = ""
  · rw [if_pos h1] at h
    exact Or.inl ((Option.some.inj h).symm.trans hreg)
  rw [if_neg h1] at h
  by_cases h2 : c.APIEndpoint = ""
  · rw [if_pos h2] at h
    exact Or.inr (Or.inl ((Option.some.inj h).symm.trans hapi))
  rw [if_neg h2] at h
  by_cases h3 : c.SyncIntervalInSeconds = 0
  · rw [if_pos h3] at h
    exact Or.inr (Or.inr (Or.inl ((Option.some.inj h).symm.trans hint)))
  rw [if_neg h3] at h
  by_cases h4 : c.Upstreams.length = 0
  · rw [if_pos h4] at h
    exact Or.inr (Or.inr (Or.inr (Or.inl ((Option.some.inj h).symm.trans hnone))))
  rw [if_neg h4] at h
  rcases validateUpstreams_in_catalog c.Upstreams m h with hm | ⟨u, hu, hn, hg | hp | hk⟩
  · exact Or.inr (Or.inr (Or.inr (Or.inr (Or.inl (hm.trans hname)))))
  · exact Or.inr (Or.inr (Or.inr (Or.inr (Or.inr
      ⟨u, hu, hn, Or.inl (hg.trans (hgrp u.Name))⟩))))
  · exact Or.inr (Or.inr (Or.inr (Or.inr (Or.inr
      ⟨u, hu, hn, Or.inr (Or.inl (hp.trans (hport u.Name)))⟩))))
  · exact Or.inr (Or.inr (Or.inr (Or.inr (Or.inr
      ⟨u, hu, hn, Or.inr (Or.inr (hk.trans (hkind u.Name)))⟩))))

/-- C12 at a concrete input: the configuration whose second upstream has kind "grpc" fails
with the kind error for "backend2", and that text is in the catalog, as the kind template with
the name of an upstream of the configuration. -/
theorem validateConfig_error_in_catalog_witness :
    validateConfig grpcConfig = some grpcKindErrorMsg ∧
    (grpcKindErrorMsg =
        "The mandatory field region is either empty or missing in the config file" ∨
      grpcKindErrorMsg =
        "The mandatory field api_endpoint is either empty or missing in the config file" ∨
      grpcKindErrorMsg =
        "The mandatory field sync_interval_in_seconds is either 0 or missing in the config file" ∨
      grpcKindErrorMsg = "There is no upstreams found in the config file" ∨
      grpcKindErrorMsg =
        "The mandatory field name is either empty or missing for an upstream in the config file" ∨
      ∃ u ∈ grpcConfig.Upstreams, u.Name ≠ "" ∧
        (grpcKindErrorMsg =
            "The mandatory field autoscaling_group is either empty or missing for the upstream "
              ++ u.Name ++ " in the config file" ∨
          grpcKindErrorMsg =
            "The mandatory field port is either zero or missing for the upstream "
              ++ u.Name ++ " in the config file" ∨
          grpcKindErrorMsg =
            "The mandatory field kind is either not equal to http or tcp or missing for the upstream "
              ++ u.Name ++ " in the config file")) :=
  ⟨by decide, validateConfig_error_in_catalog grpcConfig grpcKindErrorMsg (by decide)⟩

/-- C13: for every configuration `c` and every permutation `p` of `c.Upstreams`,
`validateConfig c` returns no error if and only if `validateConfig` returns no error on `c`
with its upstreams replaced by `p`. -/
theorem validateConfig_accepts_perm (c : config) (p : List upstream)
    (hp : List.Perm p c.Upstreams) :
    validateConfig c = none ↔ validateConfig { c with Upstreams := p } = none := by
  rw [validateConfig_accepts_iff, validateConfig_accepts_iff]
  have hnil : p = [] ↔ c.Upstreams = [] := by
    constructor
    · intro h
      rw [h] at hp
      exact List.nil_perm.mp hp
    · intro h
      rw [h] at hp
      exact List.perm_nil.mp hp
  have hmem : (∀ u ∈ p, upstreamValid u) ↔ ∀ u ∈ c.Upstreams, upstreamValid u :=
    ⟨fun h u hu => h u (hp.mem_iff.mpr hu), fun h u hu => h u (hp.mem_iff.mp hu)⟩
  simp only [topLevelValid, ne_eq, hnil, hmem]

/-- C13 at concrete inputs: two valid upstreams are accepted in either order; a valid and an
invalid upstream are rejected in either order. -/
theorem validateConfig_accepts_perm_witness :
    (validateConfig { sampleConfig with Upstreams := [sampleUpstream, streamUpstream] } = none ↔
        validateConfig { sampleConfig with Upstreams := [streamUpstream, sampleUpstream] } =
          none) ∧
      validateConfig { sampleConfig with Upstreams := [streamUpstream, sampleUpstream] } = none ∧
      (validateConfig { sampleConfig with Upstreams := [emptyUpstream, grpcUpstream] } = none ↔
        validateConfig { sampleConfig with Upstreams := [grpcUpstream, emptyUpstream] } =
          none) ∧
      validateConfig { sampleConfig with Upstreams := [emptyUpstream, grpcUpstream] } ≠
        validateConfig { sampleConfig with Upstreams := [grpcUpstream, emptyUpstream] } :=
  ⟨validateConfig_accepts_perm { sampleConfig with Upstreams := [sampleUpstream, streamUpstream] }
     [streamUpstream, sampleUpstream] (List.Perm.swap sampleUpstream streamUpstream []),
   by decide,
   validateConfig_accepts_perm { sampleConfig with Upstreams := [emptyUpstream, grpcUpstream] }
     [grpcUpstream, emptyUpstream] (List.Perm.swap emptyUpstream grpcUpstream []),
   by decide⟩

/-- C14 as stated, refuted: the configuration whose two upstreams, at positions 0 and 1, are
both fully valid and both named "backend1" is accepted by `validateConfig`, and its upstream
names are not free of duplicates. -/
theorem validateConfig_accepts_duplicate_names :
    validateConfig duplicateNameConfig = none ∧
      (duplicateNameConfig.Upstreams[0]?.map upstream.Name = some "backend1" ∧
        duplicateNameConfig.Upstreams[1]?.map upstream.Name = some "backend1") ∧
      ¬ (duplicateNameConfig.Upstreams.map upstream.Name).Nodup := by
  decide

/-- C14, amended: for every configuration that `validateConfig` accepts, every upstream has a
non-empty `Name`; names need not be unique, since the configuration with any one of its
upstreams repeated in front is accepted as well. -/
theorem validateConfig_names_nonempty (c : config) (h : validateConfig c = none) :
    (∀ u ∈ c.Upstreams, u.Name ≠ "") ∧
      ∀ u ∈ c.Upstreams, validateConfig { c with Upstreams := u :: c.Upstreams } = none := by
  obtain ⟨htop, _, hall⟩ := (validateConfig_accepts_iff c).mp h
  refine ⟨fun u hu => (hall u hu).1, fun u hu => ?_⟩
  rw [validateConfig_accepts_iff]
  refine ⟨htop, by simp, ?_⟩
  intro v hv
  rcases List.mem_cons.mp hv with hvu | hvl
  · rw [hvu]; exact hall u hu
  · exact hall v hvl

/-- C14, amended, at the sample configuration. -/
theorem validateConfig_names_nonempty_witness :
    validateConfig sampleConfig = none ∧
      (∀ u ∈ sampleConfig.Upstreams, u.Name ≠ "") ∧
      ∀ u ∈ sampleConfig.Upstreams,
        validateConfig { sampleConfig with Upstreams := u :: sampleConfig.Upstreams } = none :=
  ⟨by decide, validateConfig_names_nonempty sampleConfig (by decide)⟩

/-- C15, the code at the failing input: an upstream of kind "tcp" with valid name, group and
port is rejected, with the message whose text says the kind is not equal to "http or tcp";
an upstream of kind "stream", which that text does not name, passes the kind check. -/
theorem validateConfig_kind_tcp_rejected :
    validateConfig tcpConfig = some
        ("The mandatory field kind is either not equal to http or tcp or missing for the " ++
          "upstream backend4 in the config file") ∧
      validateConfig streamConfig = none := by
  decide

/-- C16: `MaxConns` never influences validation. Two configurations that agree in `Region`,
`APIEndpoint` and `SyncIntervalInSeconds` and whose upstreams agree position by position in
`Name`, `AutoscalingGroup`, `Port` and `Kind` get the same result from `validateConfig`; hence
replacing every `MaxConns` by any integers, negative ones included, leaves the result as it
is. -/
theorem validateConfig_ignores_maxConns (c : config) :
    (∀ d : config, c.Region = d.Region → c.APIEndpoint = d.APIEndpoint →
        c.SyncIntervalInSeconds = d.SyncIntervalInSeconds →
        List.Forall₂ sameExceptMaxConns c.Upstreams d.Upstreams →
        validateConfig c = validateConfig d) ∧
      ∀ f : upstream → Int,
        validateConfig { c with Upstreams := c.Upstreams.map fun u => { u with MaxConns := f u } } =
          validateConfig c := by
  have main : ∀ d : config, c.Region = d.Region → c.APIEndpoint = d.APIEndpoint →
      c.SyncIntervalInSeconds = d.SyncIntervalInSeconds →
      List.Forall₂ sameExceptMaxConns c.Upstreams d.Upstreams →
      validateConfig c = validateConfig d := by
    intro d hr ha hs hu
    unfold validateConfig
    rw [hr, ha, hs, hu.length_eq, validateUpstreams_congr _ _ hu]
  refine ⟨main, fun f => ?_⟩
  unfold validateConfig
  simp only [List.length_map]
  rw [← validateUpstreams_congr _ _ (sameExceptMaxConns_map f c.Upstreams)]

/-- C16 at concrete inputs: the sample configuration and the same configuration with
`MaxConns` -3 on its upstream are both accepted, with the same result. -/
theorem validateConfig_ignores_maxConns_witness :
    validateConfig sampleConfig =
        validateConfig
          { sampleConfig with Upstreams := [{ sampleUpstream with MaxConns := -3 }] } ∧
      validateConfig
          { sampleConfig with Upstreams := [{ sampleUpstream with MaxConns := -3 }] } = none :=
  ⟨(validateConfig_ignores_maxConns sampleConfig).1
     { sampleConfig with Upstreams := [{ sampleUpstream with MaxConns := -3 }] } rfl rfl rfl
     (List.Forall₂.cons ⟨rfl, rfl, rfl, rfl⟩ List.Forall₂.nil),
   by decide⟩

/-- C17: `makeExtraParams` loses no information about `MaxConns`: equal results imply equal
`MaxConns`, the empty string stands for zero only, and every non-empty result starts with the
character '&'. -/
theorem makeExtraParams_injective (u v : upstream) :
    (makeExtraParams u = makeExtraParams v → u.MaxConns = v.MaxConns) ∧
      (makeExtraParams u = "" ↔ u.MaxConns = 0) ∧
      (makeExtraParams u ≠ "" → (makeExtraParams u).data.head? = some '&') := by
  refine ⟨?_, makeExtraParams_eq_empty_iff u, ?_⟩
  · intro h
    by_cases hu : u.MaxConns = 0
    · have hv : makeExtraParams v = "" := by
        rw [← h]; exact (makeExtraParams_eq_empty_iff u).mpr hu
      rw [hu, (makeExtraParams_eq_empty_iff v).mp hv]
    · have hv : v.MaxConns ≠ 0 := by
        intro hv0
        have hue : makeExtraParams u = "" := by
          rw [h]; exact (makeExtraParams_eq_empty_iff v).mpr hv0
        exact hu ((makeExtraParams_eq_empty_iff u).mp hue)
      rw [makeExtraParams_eq, makeExtraParams_eq, if_neg hu, if_neg hv] at h
      have hfmt := string_append_left_cancel _ _ _ h
      rw [fmtInteger_eq_base10 _ hu, fmtInteger_eq_base10 _ hv] at hfmt
      exact base10_injective _ _ hfmt
  · intro hne
    have hu : u.MaxConns ≠ 0 := fun h0 => hne ((makeExtraParams_eq_empty_iff u).mpr h0)
    rw [makeExtraParams_eq, if_neg hu, String.data_append]
    rfl

/-- C17 at concrete inputs: two upstreams that differ in every field but `MaxConns` give the
same string, which starts with '&'. -/
theorem makeExtraParams_injective_witness :
    makeExtraParams { sampleUpstream with MaxConns := -12 } =
        makeExtraParams { grpcUpstream with MaxConns := -12 } ∧
      ({ sampleUpstream with MaxConns := -12 } : upstream).MaxConns =
        ({ grpcUpstream with MaxConns := -12 } : upstream).MaxConns ∧
      (makeExtraParams { sampleUpstream with MaxConns := -12 }).data.head? = some '&' :=
  ⟨by decide,
   (makeExtraParams_injective { sampleUpstream with MaxConns := -12 }
     { grpcUpstream with MaxConns := -12 }).1 (by decide),
   (makeExtraParams_injective { sampleUpstream with MaxConns := -12 }
     { grpcUpstream with MaxConns := -12 }).2.2 (by decide)⟩

end AsgSync
